import Mathlib

/-
Verification development for the image-compressor repository (src/main.rs).

The program compresses a raster image to a caller-specified byte budget by
walking encoding knobs (JPEG quality and scale; PNG and WebP scale only),
re-encoding each iteration and measuring the output length.  The pixel
decoder, the concrete encoders, the `oxipng` post-optimizer and the resize
filter are external collaborators; they are modelled as opaque functions
gathered in a `Collab` record.  Byte buffers are lists of naturals; errors
are the `anyhow`-style error values that the collaborators return.

Numeric semantics: the source stores `scale` in an `f32` and repeatedly
subtracts the literal `0.1`, comparing against the literals `1.0` and `0.1`.
We model `scale` as an exact rational walked in steps of `1/10`.  This is
extensionally faithful for the loop's control flow: simulating the IEEE
binary32 trace (1.0, 0.899999976…, …, 0.099999926…) shows that both
comparisons `scale < 1.0` and `scale <= 0.1` give the same verdict as the
exact-decimal model at every reachable iteration (the `<= 0.1` test first
succeeds after exactly 9 decrements in both semantics).
-/

namespace ImageCompressor

/-- Encoded output bytes (`Vec<u8>` in the source); only the identity and
length of the buffer matter to the search loops. -/
abbrev Bytes := List Nat

/-- Error values (`anyhow::Error` in the source), modelled opaquely. -/
abbrev Err := String

/-- A decoded raster (`image::DynamicImage`): a width, a height and opaque
pixel contents. -/
structure Img where
  width : Nat
  height : Nat
  pixels : List Nat
deriving DecidableEq

/-- The external collaborators consumed by the search loops:
`DynamicImage::resize` (with the fixed Lanczos3 filter), the JPEG encoder at
a given quality, the PNG and WebP encoders reached through `write_to`, and
`oxipng::optimize_from_memory` at the fixed preset 2 (its error already
converted to the loop's error type, as `map_err` does in the source). -/
structure Collab where
  resize : Img → Nat → Nat → Img
  encodeJpegQ : Img → Nat → Except Err Bytes
  encodePng : Img → Except Err Bytes
  encodeWebp : Img → Except Err Bytes
  optimizePng : Bytes → Except Err Bytes

/-- The working raster of one iteration: `if scale < 1.0` resize to
`((w as f32 * scale) as u32, (h as f32 * scale) as u32)` — both dimensions
scaled by the same factor and floor-truncated (non-negative truncation,
clamped at zero exactly as a float-to-`u32` `as` cast is) — otherwise the
input raster unchanged.  Shared verbatim by all three codec loops. -/
def processedImg (C : Collab) (img : Img) (scale : ℚ) : Img :=
  if scale < 1 then
    C.resize img (⌊(img.width : ℚ) * scale⌋).toNat (⌊(img.height : ℚ) * scale⌋).toNat
  else
    img

/-- One JPEG encode-and-measure attempt: encode the working raster at the
current quality (`JpegEncoder::new_with_quality` + `encode_image`). -/
def jpegAttempt (C : Collab) (img : Img) (quality : Nat) (scale : ℚ) : Except Err Bytes :=
  C.encodeJpegQ (processedImg C img scale) quality

/-- The JPEG knob update of lines 68–72: `if quality > 10 { quality -= 10 }
else { scale -= 0.1 }`.  Quality stays in `[10, 90]` on every reachable
state, so natural subtraction is exact. -/
def jpegUpdate (quality : Nat) (scale : ℚ) : Nat × ℚ :=
  if 10 < quality then (quality - 10, scale) else (quality, scale - 1/10)

/-- The `loop` of `compress_jpeg`, with an explicit fuel counting remaining
iterations; `none` marks fuel exhaustion and is proved unreachable from the
actual entry state (see the termination theorem). -/
def jpegLoop (C : Collab) (img : Img) (target : Nat) :
    Nat → Nat → ℚ → Option (Except Err Bytes)
  | 0, _, _ => none
  | fuel + 1, quality, scale =>
    match jpegAttempt C img quality scale with
    | Except.error e => some (Except.error e)
    | Except.ok buffer =>
      if buffer.length ≤ target ∨ (quality ≤ 10 ∧ scale ≤ 1/10) then
        some (Except.ok buffer)
      else
        jpegLoop C img target fuel (jpegUpdate quality scale).1 (jpegUpdate quality scale).2

/-- `compress_jpeg` (lines 39–76): run the loop from `quality = 90`,
`scale = 1.0`.  Fuel 18 is sufficient (proved below), so the default value
is never returned. -/
def compress_jpeg (C : Collab) (img : Img) (target : Nat) : Except Err Bytes :=
  (jpegLoop C img target 18 90 1).getD (Except.error "unreachable")

/-- One PNG encode-and-measure attempt (lines 95–102): encode the working
raster as PNG, then run `oxipng::optimize_from_memory` on the encoded bytes;
either failure propagates. -/
def pngAttempt (C : Collab) (img : Img) (scale : ℚ) : Except Err Bytes :=
  match C.encodePng (processedImg C img scale) with
  | Except.error e => Except.error e
  | Except.ok buffer => C.optimizePng buffer

/-- The `loop` of `compress_png`: the budget comparison reads the length of
the optimized bytes, and the optimized bytes are what is returned. -/
def pngLoop (C : Collab) (img : Img) (target : Nat) :
    Nat → ℚ → Option (Except Err Bytes)
  | 0, _ => none
  | fuel + 1, scale =>
    match pngAttempt C img scale with
    | Except.error e => some (Except.error e)
    | Except.ok optimized =>
      if optimized.length ≤ target ∨ scale ≤ 1/10 then
        some (Except.ok optimized)
      else
        pngLoop C img target fuel (scale - 1/10)

/-- `compress_png` (lines 78–109): run the loop from `scale = 1.0`.  Fuel 10
is sufficient (proved below). -/
def compress_png (C : Collab) (img : Img) (target : Nat) : Except Err Bytes :=
  (pngLoop C img target 10 1).getD (Except.error "unreachable")

/-- One WebP encode-and-measure attempt (line 130): encode the working
raster with `write_to(…, ImageFormat::WebP)`; no quality parameter reaches
the encoder. -/
def webpAttempt (C : Collab) (img : Img) (scale : ℚ) : Except Err Bytes :=
  C.encodeWebp (processedImg C img scale)

/-- The `loop` of `compress_webp`: identical shape to the PNG loop but with
no post-optimizer. -/
def webpLoop (C : Collab) (img : Img) (target : Nat) :
    Nat → ℚ → Option (Except Err Bytes)
  | 0, _ => none
  | fuel + 1, scale =>
    match webpAttempt C img scale with
    | Except.error e => some (Except.error e)
    | Except.ok buffer =>
      if buffer.length ≤ target ∨ scale ≤ 1/10 then
        some (Except.ok buffer)
      else
        webpLoop C img target fuel (scale - 1/10)

/-- `compress_webp` (lines 111–141) generalized over its local `quality`
variable: line 112 initializes `let mut quality = 80.0;` and no later
statement reads it, so the body ignores the parameter. -/
def compress_webp_withQuality (C : Collab) (img : Img) (target : Nat)
    (quality : ℚ) : Except Err Bytes :=
  (webpLoop C img target 10 1).getD (Except.error "unreachable")

/-- `compress_webp` as written: the dead `quality` local holds `80.0`. -/
def compress_webp (C : Collab) (img : Img) (target : Nat) : Except Err Bytes :=
  compress_webp_withQuality C img target 80

/-- The `Format` value enum of the CLI. -/
inductive Format where
  | Auto
  | Jpeg
  | Png
  | Webp
deriving DecidableEq

/-- Format selection in `main` (lines 154–163): an explicit request other
than `Auto` is used directly; under `Auto` the output extension is matched,
with unknown or absent extensions defaulting to JPEG. -/
def detectFormat (requested : Format) (ext : Option String) : Format :=
  if requested = Format.Auto then
    match ext with
    | some "jpg" => Format.Jpeg
    | some "jpeg" => Format.Jpeg
    | some "png" => Format.Png
    | some "webp" => Format.Webp
    | _ => Format.Jpeg
  else
    requested

/-- The budget verdict reported by `main` (lines 176–182): after writing the
compressed bytes, the file size — the length of the returned buffer — is
compared against the target; `metBudget = true` is the success message,
`false` the warning. -/
def metBudget (data : Bytes) (target : Nat) : Bool :=
  decide (data.length ≤ target)

/-- The JPEG knob update as a map on pairs, for iterating. -/
def jpegStepPair (p : Nat × ℚ) : Nat × ℚ := jpegUpdate p.1 p.2

/-- The JPEG knob trajectory: the knobs entering iteration `n` (0-based)
when every earlier iteration failed the budget. -/
def jpegKnobs (n : Nat) : Nat × ℚ := jpegStepPair^[n] (90, 1)

/-- The scale trajectory of the PNG and WebP loops: `scale -= 0.1` iterated
from `1.0`. -/
def scaleWalk (n : Nat) : ℚ := (fun s => s - 1/10)^[n] 1

/-- Iteration `n` of the JPEG loop neither meets the budget nor errors nor
is exhausted, so the loop continues past it. -/
def jpegContinues (C : Collab) (img : Img) (target n : Nat) : Prop :=
  ∃ b : Bytes, jpegAttempt C img (jpegKnobs n).1 (jpegKnobs n).2 = Except.ok b ∧
    target < b.length ∧ ¬((jpegKnobs n).1 ≤ 10 ∧ (jpegKnobs n).2 ≤ 1/10)

/-- Iteration `n` of the PNG loop continues past its budget test. -/
def pngContinues (C : Collab) (img : Img) (target n : Nat) : Prop :=
  ∃ b : Bytes, pngAttempt C img (scaleWalk n) = Except.ok b ∧
    target < b.length ∧ ¬(scaleWalk n ≤ 1/10)

/-- Iteration `n` of the WebP loop continues past its budget test. -/
def webpContinues (C : Collab) (img : Img) (target n : Nat) : Prop :=
  ∃ b : Bytes, webpAttempt C img (scaleWalk n) = Except.ok b ∧
    target < b.length ∧ ¬(scaleWalk n ≤ 1/10)

lemma scaleWalk_succ (n : Nat) : scaleWalk (n + 1) = scaleWalk n - 1/10 := by
  simp [scaleWalk, Function.iterate_succ_apply']

lemma scaleWalk_eq (n : Nat) : scaleWalk n = 1 - (n : ℚ) / 10 := by
  induction n with
  | zero => simp [scaleWalk]
  | succ n ih =>
    rw [scaleWalk_succ, ih]
    push_cast
    ring

lemma scaleWalk_exhausted_iff (n : Nat) : scaleWalk n ≤ 1/10 ↔ 9 ≤ n := by
  rw [scaleWalk_eq]
  constructor
  · intro h
    have h9 : (9 : ℚ) ≤ (n : ℚ) := by linarith
    exact_mod_cast h9
  · intro h
    have h9 : (9 : ℚ) ≤ (n : ℚ) := by exact_mod_cast h
    linarith

lemma jpegKnobs_succ (n : Nat) : jpegKnobs (n + 1) = jpegStepPair (jpegKnobs n) := by
  simp [jpegKnobs, Function.iterate_succ_apply']

lemma jpegKnobs_le8 (n : Nat) (h : n ≤ 8) : jpegKnobs n = (90 - 10 * n, 1) := by
  induction n with
  | zero => rfl
  | succ n ih =>
    have hn : n ≤ 8 := by omega
    rw [jpegKnobs_succ, ih hn]
    have h10 : 10 < 90 - 10 * n := by omega
    have harith : 90 - 10 * n - 10 = 90 - 10 * (n + 1) := by omega
    simp [jpegStepPair, jpegUpdate, h10, harith]

lemma jpegKnobs_ge8 (k : Nat) : jpegKnobs (8 + k) = (10, scaleWalk k) := by
  induction k with
  | zero =>
    have h8 := jpegKnobs_le8 8 le_rfl
    simpa [scaleWalk] using h8
  | succ k ih =>
    rw [show 8 + (k + 1) = (8 + k) + 1 by omega, jpegKnobs_succ, ih]
    simp [jpegStepPair, jpegUpdate, scaleWalk_succ]

lemma jpegExhausted_iff (n : Nat) :
    ((jpegKnobs n).1 ≤ 10 ∧ (jpegKnobs n).2 ≤ 1/10) ↔ 17 ≤ n := by
  rcases Nat.lt_or_ge n 8 with h | h
  · rw [jpegKnobs_le8 n (by omega)]
    constructor
    · rintro ⟨h1, -⟩
      exfalso
      simp only at h1
      omega
    · intro h17
      omega
  · obtain ⟨k, rfl⟩ := Nat.exists_eq_add_of_le h
    rw [jpegKnobs_ge8 k]
    simp only
    rw [scaleWalk_eq]
    constructor
    · rintro ⟨-, h2⟩
      have h9 : (9 : ℚ) ≤ (k : ℚ) := by linarith
      have h9n : 9 ≤ k := by exact_mod_cast h9
      omega
    · intro h17
      have h9 : 9 ≤ k := by omega
      have h9q : (9 : ℚ) ≤ (k : ℚ) := by exact_mod_cast h9
      exact ⟨le_rfl, by linarith⟩

lemma jpegLoop_succ (C : Collab) (img : Img) (target fuel quality : Nat) (scale : ℚ) :
    jpegLoop C img target (fuel + 1) quality scale =
      match jpegAttempt C img quality scale with
      | Except.error e => some (Except.error e)
      | Except.ok buffer =>
        if buffer.length ≤ target ∨ (quality ≤ 10 ∧ scale ≤ 1/10) then
          some (Except.ok buffer)
        else
          jpegLoop C img target fuel (jpegUpdate quality scale).1 (jpegUpdate quality scale).2 :=
  rfl

lemma jpegLoop_err (C : Collab) (img : Img) (target fuel quality : Nat) (scale : ℚ)
    (e : Err) (h : jpegAttempt C img quality scale = Except.error e) :
    jpegLoop C img target (fuel + 1) quality scale = some (Except.error e) := by
  simp only [jpegLoop_succ, h]

lemma jpegLoop_stop (C : Collab) (img : Img) (target fuel quality : Nat) (scale : ℚ)
    (b : Bytes) (h : jpegAttempt C img quality scale = Except.ok b)
    (hstop : b.length ≤ target ∨ (quality ≤ 10 ∧ scale ≤ 1/10)) :
    jpegLoop C img target (fuel + 1) quality scale = some (Except.ok b) := by
  simp only [jpegLoop_succ, h, if_pos hstop]

lemma jpegLoop_cont (C : Collab) (img : Img) (target fuel quality : Nat) (scale : ℚ)
    (b : Bytes) (h : jpegAttempt C img quality scale = Except.ok b)
    (hlen : ¬ b.length ≤ target) (hex : ¬(quality ≤ 10 ∧ scale ≤ 1/10)) :
    jpegLoop C img target (fuel + 1) quality scale =
      jpegLoop C img target fuel (jpegUpdate quality scale).1 (jpegUpdate quality scale).2 := by
  simp only [jpegLoop_succ, h, if_neg (by tauto : ¬(b.length ≤ target ∨ (quality ≤ 10 ∧ scale ≤ 1/10)))]

lemma pngLoop_succ (C : Collab) (img : Img) (target fuel : Nat) (scale : ℚ) :
    pngLoop C img target (fuel + 1) scale =
      match pngAttempt C img scale with
      | Except.error e => some (Except.error e)
      | Except.ok optimized =>
        if optimized.length ≤ target ∨ scale ≤ 1/10 then
          some (Except.ok optimized)
        else
          pngLoop C img target fuel (scale - 1/10) :=
  rfl

lemma pngLoop_err (C : Collab) (img : Img) (target fuel : Nat) (scale : ℚ)
    (e : Err) (h : pngAttempt C img scale = Except.error e) :
    pngLoop C img target (fuel + 1) scale = some (Except.error e) := by
  simp only [pngLoop_succ, h]

lemma pngLoop_stop (C : Collab) (img : Img) (target fuel : Nat) (scale : ℚ)
    (b : Bytes) (h : pngAttempt C img scale = Except.ok b)
    (hstop : b.length ≤ target ∨ scale ≤ 1/10) :
    pngLoop C img target (fuel + 1) scale = some (Except.ok b) := by
  simp only [pngLoop_succ, h, if_pos hstop]

lemma pngLoop_cont (C : Collab) (img : Img) (target fuel : Nat) (scale : ℚ)
    (b : Bytes) (h : pngAttempt C img scale = Except.ok b)
    (hlen : ¬ b.length ≤ target) (hex : ¬ scale ≤ 1/10) :
    pngLoop C img target (fuel + 1) scale = pngLoop C img target fuel (scale - 1/10) := by
  simp only [pngLoop_succ, h, if_neg (by tauto : ¬(b.length ≤ target ∨ scale ≤ 1/10))]

lemma webpLoop_succ (C : Collab) (img : Img) (target fuel : Nat) (scale : ℚ) :
    webpLoop C img target (fuel + 1) scale =
      match webpAttempt C img scale with
      | Except.error e => some (Except.error e)
      | Except.ok buffer =>
        if buffer.length ≤ target ∨ scale ≤ 1/10 then
          some (Except.ok buffer)
        else
          webpLoop C img target fuel (scale - 1/10) :=
  rfl

lemma webpLoop_err (C : Collab) (img : Img) (target fuel : Nat) (scale : ℚ)
    (e : Err) (h : webpAttempt C img scale = Except.error e) :
    webpLoop C img target (fuel + 1) scale = some (Except.error e) := by
  simp only [webpLoop_succ, h]

lemma webpLoop_stop (C : Collab) (img : Img) (target fuel : Nat) (scale : ℚ)
    (b : Bytes) (h : webpAttempt C img scale = Except.ok b)
    (hstop : b.length ≤ target ∨ scale ≤ 1/10) :
    webpLoop C img target (fuel + 1) scale = some (Except.ok b) := by
  simp only [webpLoop_succ, h, if_pos hstop]

lemma webpLoop_cont (C : Collab) (img : Img) (target fuel : Nat) (scale : ℚ)
    (b : Bytes) (h : webpAttempt C img scale = Except.ok b)
    (hlen : ¬ b.length ≤ target) (hex : ¬ scale ≤ 1/10) :
    webpLoop C img target (fuel + 1) scale = webpLoop C img target fuel (scale - 1/10) := by
  simp only [webpLoop_succ, h, if_neg (by tauto : ¬(b.length ≤ target ∨ scale ≤ 1/10))]

lemma jpegLoop_skip (C : Collab) (img : Img) (target : Nat) (n : Nat) :
    ∀ fuel : Nat, (∀ m < n, jpegContinues C img target m) →
      jpegLoop C img target (n + fuel) 90 1 =
        jpegLoop C img target fuel (jpegKnobs n).1 (jpegKnobs n).2 := by
  induction n with
  | zero =>
    intro fuel _
    simp [jpegKnobs]
  | succ n ih =>
    intro fuel h
    obtain ⟨b, hb, hlen, hex⟩ := h n (by omega)
    calc jpegLoop C img target (n + 1 + fuel) 90 1
        = jpegLoop C img target (n + (fuel + 1)) 90 1 := by
          rw [show n + 1 + fuel = n + (fuel + 1) by omega]
      _ = jpegLoop C img target (fuel + 1) (jpegKnobs n).1 (jpegKnobs n).2 :=
          ih (fuel + 1) (fun m hm => h m (by omega))
      _ = jpegLoop C img target fuel (jpegUpdate (jpegKnobs n).1 (jpegKnobs n).2).1
            (jpegUpdate (jpegKnobs n).1 (jpegKnobs n).2).2 :=
          jpegLoop_cont C img target fuel _ _ b hb (not_le.mpr hlen) hex
      _ = jpegLoop C img target fuel (jpegKnobs (n + 1)).1 (jpegKnobs (n + 1)).2 := by
          rw [jpegKnobs_succ, jpegStepPair]

lemma pngLoop_skip (C : Collab) (img : Img) (target : Nat) (n : Nat) :
    ∀ fuel : Nat, (∀ m < n, pngContinues C img target m) →
      pngLoop C img target (n + fuel) 1 =
        pngLoop C img target fuel (scaleWalk n) := by
  induction n with
  | zero =>
    intro fuel _
    simp [scaleWalk]
  | succ n ih =>
    intro fuel h
    obtain ⟨b, hb, hlen, hex⟩ := h n (by omega)
    calc pngLoop C img target (n + 1 + fuel) 1
        = pngLoop C img target (n + (fuel + 1)) 1 := by
          rw [show n + 1 + fuel = n + (fuel + 1) by omega]
      _ = pngLoop C img target (fuel + 1) (scaleWalk n) :=
          ih (fuel + 1) (fun m hm => h m (by omega))
      _ = pngLoop C img target fuel (scaleWalk n - 1/10) :=
          pngLoop_cont C img target fuel _ b hb (not_le.mpr hlen) hex
      _ = pngLoop C img target fuel (scaleWalk (n + 1)) := by
          rw [scaleWalk_succ]

lemma webpLoop_skip (C : Collab) (img : Img) (target : Nat) (n : Nat) :
    ∀ fuel : Nat, (∀ m < n, webpContinues C img target m) →
      webpLoop C img target (n + fuel) 1 =
        webpLoop C img target fuel (scaleWalk n) := by
  induction n with
  | zero =>
    intro fuel _
    simp [scaleWalk]
  | succ n ih =>
    intro fuel h
    obtain ⟨b, hb, hlen, hex⟩ := h n (by omega)
    calc webpLoop C img target (n + 1 + fuel) 1
        = webpLoop C img target (n + (fuel + 1)) 1 := by
          rw [show n + 1 + fuel = n + (fuel + 1) by omega]
      _ = webpLoop C img target (fuel + 1) (scaleWalk n) :=
          ih (fuel + 1) (fun m hm => h m (by omega))
      _ = webpLoop C img target fuel (scaleWalk n - 1/10) :=
          webpLoop_cont C img target fuel _ b hb (not_le.mpr hlen) hex
      _ = webpLoop C img target fuel (scaleWalk (n + 1)) := by
          rw [scaleWalk_succ]

lemma jpegLoop_isSome (C : Collab) (img : Img) (target : Nat) :
    ∀ (fuel : Nat) (q : Nat) (s : ℚ),
      (∃ k, k < fuel ∧ (jpegStepPair^[k] (q, s)).1 ≤ 10 ∧ (jpegStepPair^[k] (q, s)).2 ≤ 1/10) →
      (jpegLoop C img target fuel q s).isSome = true := by
  intro fuel
  induction fuel with
  | zero =>
    rintro q s ⟨k, hk, -, -⟩
    omega
  | succ fuel ih =>
    rintro q s ⟨k, hk, hq, hs⟩
    rw [jpegLoop_succ]
    cases hatt : jpegAttempt C img q s with
    | error e => simp
    | ok b =>
      simp only
      by_cases hstop : b.length ≤ target ∨ (q ≤ 10 ∧ s ≤ 1/10)
      · rw [if_pos hstop]
        simp
      · rw [if_neg hstop]
        cases k with
        | zero =>
          simp only [Function.iterate_zero_apply] at hq hs
          exact absurd (Or.inr ⟨hq, hs⟩) hstop
        | succ k =>
          rw [Function.iterate_succ_apply] at hq hs
          apply ih
          refine ⟨k, by omega, ?_, ?_⟩
          · simpa [jpegStepPair] using hq
          · simpa [jpegStepPair] using hs

lemma pngLoop_isSome (C : Collab) (img : Img) (target : Nat) :
    ∀ (fuel : Nat) (s : ℚ),
      (∃ k : Nat, k < fuel ∧ s - (k : ℚ)/10 ≤ 1/10) →
      (pngLoop C img target fuel s).isSome = true := by
  intro fuel
  induction fuel with
  | zero =>
    rintro s ⟨k, hk, -⟩
    omega
  | succ fuel ih =>
    rintro s ⟨k, hk, hs⟩
    rw [pngLoop_succ]
    cases hatt : pngAttempt C img s with
    | error e => simp
    | ok b =>
      simp only
      by_cases hstop : b.length ≤ target ∨ s ≤ 1/10
      · rw [if_pos hstop]
        simp
      · rw [if_neg hstop]
        cases k with
        | zero =>
          exact absurd (Or.inr (by simpa using hs)) hstop
        | succ k =>
          apply ih
          refine ⟨k, by omega, ?_⟩
          push_cast at hs ⊢
          linarith

lemma webpLoop_isSome (C : Collab) (img : Img) (target : Nat) :
    ∀ (fuel : Nat) (s : ℚ),
      (∃ k : Nat, k < fuel ∧ s - (k : ℚ)/10 ≤ 1/10) →
      (webpLoop C img target fuel s).isSome = true := by
  intro fuel
  induction fuel with
  | zero =>
    rintro s ⟨k, hk, -⟩
    omega
  | succ fuel ih =>
    rintro s ⟨k, hk, hs⟩
    rw [webpLoop_succ]
    cases hatt : webpAttempt C img s with
    | error e => simp
    | ok b =>
      simp only
      by_cases hstop : b.length ≤ target ∨ s ≤ 1/10
      · rw [if_pos hstop]
        simp
      · rw [if_neg hstop]
        cases k with
        | zero =>
          exact absurd (Or.inr (by simpa using hs)) hstop
        | succ k =>
          apply ih
          refine ⟨k, by omega, ?_⟩
          push_cast at hs ⊢
          linarith

lemma compress_jpeg_ok_iff (C : Collab) (img : Img) (target : Nat) (buf : Bytes) :
    compress_jpeg C img target = Except.ok buf ↔
      ∃ n, n < 18 ∧ (∀ m < n, jpegContinues C img target m) ∧
        jpegAttempt C img (jpegKnobs n).1 (jpegKnobs n).2 = Except.ok buf ∧
        (buf.length ≤ target ∨ ((jpegKnobs n).1 ≤ 10 ∧ (jpegKnobs n).2 ≤ 1/10)) := by
  classical
  constructor
  · intro h
    have hP : ∃ n, ¬ jpegContinues C img target n := by
      refine ⟨17, ?_⟩
      rintro ⟨b, -, -, hex⟩
      exact hex ((jpegExhausted_iff 17).mpr le_rfl)
    have hn₀ : ¬ jpegContinues C img target (Nat.find hP) := Nat.find_spec hP
    have hmin : ∀ m < Nat.find hP, jpegContinues C img target m := fun m hm =>
      not_not.mp (Nat.find_min hP hm)
    have hle : Nat.find hP ≤ 17 := Nat.find_min' hP (by
      rintro ⟨b, -, -, hex⟩
      exact hex ((jpegExhausted_iff 17).mpr le_rfl))
    have hskip := jpegLoop_skip C img target (Nat.find hP) (18 - Nat.find hP) hmin
    rw [show Nat.find hP + (18 - Nat.find hP) = 18 by omega] at hskip
    unfold compress_jpeg at h
    rw [hskip, show 18 - Nat.find hP = (17 - Nat.find hP) + 1 by omega] at h
    cases hatt : jpegAttempt C img (jpegKnobs (Nat.find hP)).1 (jpegKnobs (Nat.find hP)).2 with
    | error e =>
      rw [jpegLoop_err C img target _ _ _ e hatt] at h
      simp at h
    | ok b =>
      by_cases hstop : b.length ≤ target ∨
          ((jpegKnobs (Nat.find hP)).1 ≤ 10 ∧ (jpegKnobs (Nat.find hP)).2 ≤ 1/10)
      · rw [jpegLoop_stop C img target _ _ _ b hatt hstop] at h
        simp only [Option.getD_some] at h
        obtain rfl : b = buf := by
          injection h
        exact ⟨Nat.find hP, by omega, hmin, hatt, hstop⟩
      · push_neg at hstop
        exact absurd ⟨b, hatt, hstop.1, fun hx => not_le.mpr (hstop.2 hx.1) hx.2⟩ hn₀
  · rintro ⟨n, hn, hcont, hatt, hstop⟩
    have hskip := jpegLoop_skip C img target n (18 - n) hcont
    rw [show n + (18 - n) = 18 by omega] at hskip
    unfold compress_jpeg
    rw [hskip, show 18 - n = (17 - n) + 1 by omega,
      jpegLoop_stop C img target _ _ _ buf hatt hstop]
    rfl

lemma compress_png_ok_iff (C : Collab) (img : Img) (target : Nat) (buf : Bytes) :
    compress_png C img target = Except.ok buf ↔
      ∃ n, n < 10 ∧ (∀ m < n, pngContinues C img target m) ∧
        pngAttempt C img (scaleWalk n) = Except.ok buf ∧
        (buf.length ≤ target ∨ scaleWalk n ≤ 1/10) := by
  classical
  constructor
  · intro h
    have hP : ∃ n, ¬ pngContinues C img target n := by
      refine ⟨9, ?_⟩
      rintro ⟨b, -, -, hex⟩
      exact hex ((scaleWalk_exhausted_iff 9).mpr le_rfl)
    have hn₀ : ¬ pngContinues C img target (Nat.find hP) := Nat.find_spec hP
    have hmin : ∀ m < Nat.find hP, pngContinues C img target m := fun m hm =>
      not_not.mp (Nat.find_min hP hm)
    have hle : Nat.find hP ≤ 9 := Nat.find_min' hP (by
      rintro ⟨b, -, -, hex⟩
      exact hex ((scaleWalk_exhausted_iff 9).mpr le_rfl))
    have hskip := pngLoop_skip C img target (Nat.find hP) (10 - Nat.find hP) hmin
    rw [show Nat.find hP + (10 - Nat.find hP) = 10 by omega] at hskip
    unfold compress_png at h
    rw [hskip, show 10 - Nat.find hP = (9 - Nat.find hP) + 1 by omega] at h
    cases hatt : pngAttempt C img (scaleWalk (Nat.find hP)) with
    | error e =>
      rw [pngLoop_err C img target _ _ e hatt] at h
      simp at h
    | ok b =>
      by_cases hstop : b.length ≤ target ∨ scaleWalk (Nat.find hP) ≤ 1/10
      · rw [pngLoop_stop C img target _ _ b hatt hstop] at h
        simp only [Option.getD_some] at h
        obtain rfl : b = buf := by
          injection h
        exact ⟨Nat.find hP, by omega, hmin, hatt, hstop⟩
      · push_neg at hstop
        exact absurd ⟨b, hatt, hstop.1, not_le.mpr hstop.2⟩ hn₀
  · rintro ⟨n, hn, hcont, hatt, hstop⟩
    have hskip := pngLoop_skip C img target n (10 - n) hcont
    rw [show n + (10 - n) = 10 by omega] at hskip
    unfold compress_png
    rw [hskip, show 10 - n = (9 - n) + 1 by omega,
      pngLoop_stop C img target _ _ buf hatt hstop]
    rfl

lemma compress_webp_ok_iff (C : Collab) (img : Img) (target : Nat) (buf : Bytes) :
    compress_webp C img target = Except.ok buf ↔
      ∃ n, n < 10 ∧ (∀ m < n, webpContinues C img target m) ∧
        webpAttempt C img (scaleWalk n) = Except.ok buf ∧
        (buf.length ≤ target ∨ scaleWalk n ≤ 1/10) := by
  classical
  constructor
  · intro h
    have hP : ∃ n, ¬ webpContinues C img target n := by
      refine ⟨9, ?_⟩
      rintro ⟨b, -, -, hex⟩
      exact hex ((scaleWalk_exhausted_iff 9).mpr le_rfl)
    have hn₀ : ¬ webpContinues C img target (Nat.find hP) := Nat.find_spec hP
    have hmin : ∀ m < Nat.find hP, webpContinues C img target m := fun m hm =>
      not_not.mp (Nat.find_min hP hm)
    have hle : Nat.find hP ≤ 9 := Nat.find_min' hP (by
      rintro ⟨b, -, -, hex⟩
      exact hex ((scaleWalk_exhausted_iff 9).mpr le_rfl))
    have hskip := webpLoop_skip C img target (Nat.find hP) (10 - Nat.find hP) hmin
    rw [show Nat.find hP + (10 - Nat.find hP) = 10 by omega] at hskip
    unfold compress_webp compress_webp_withQuality at h
    rw [hskip, show 10 - Nat.find hP = (9 - Nat.find hP) + 1 by omega] at h
    cases hatt : webpAttempt C img (scaleWalk (Nat.find hP)) with
    | error e =>
      rw [webpLoop_err C img target _ _ e hatt] at h
      simp at h
    | ok b =>
      by_cases hstop : b.length ≤ target ∨ scaleWalk (Nat.find hP) ≤ 1/10
      · rw [webpLoop_stop C img target _ _ b hatt hstop] at h
        simp only [Option.getD_some] at h
        obtain rfl : b = buf := by
          injection h
        exact ⟨Nat.find hP, by omega, hmin, hatt, hstop⟩
      · push_neg at hstop
        exact absurd ⟨b, hatt, hstop.1, not_le.mpr hstop.2⟩ hn₀
  · rintro ⟨n, hn, hcont, hatt, hstop⟩
    have hskip := webpLoop_skip C img target n (10 - n) hcont
    rw [show n + (10 - n) = 10 by omega] at hskip
    unfold compress_webp compress_webp_withQuality
    rw [hskip, show 10 - n = (9 - n) + 1 by omega,
      webpLoop_stop C img target _ _ buf hatt hstop]
    rfl

/-- A small test raster. -/
def wImg : Img := ⟨10, 10, []⟩

/-- Collaborators whose encoders all succeed with a fixed buffer. -/
def okCollab (b : Bytes) : Collab where
  resize := fun img _ _ => img
  encodeJpegQ := fun _ _ => Except.ok b
  encodePng := fun _ => Except.ok b
  encodeWebp := fun _ => Except.ok b
  optimizePng := fun _ => Except.ok b

/-- Collaborators whose PNG encoder and optimizer return different buffers,
to observe which one the search measures and returns. -/
def pngCollab : Collab where
  resize := fun img _ _ => img
  encodeJpegQ := fun _ _ => Except.ok []
  encodePng := fun _ => Except.ok [1, 2, 3]
  encodeWebp := fun _ => Except.ok []
  optimizePng := fun _ => Except.ok [7]

/-- Collaborators whose encoders all fail. -/
def errCollab : Collab where
  resize := fun img _ _ => img
  encodeJpegQ := fun _ _ => Except.error "boom"
  encodePng := fun _ => Except.error "boom"
  encodeWebp := fun _ => Except.error "boom"
  optimizePng := fun _ => Except.error "boom"

/-- Collaborators whose PNG encoder succeeds but whose optimizer fails. -/
def optErrCollab : Collab where
  resize := fun img _ _ => img
  encodeJpegQ := fun _ _ => Except.ok []
  encodePng := fun _ => Except.ok [1]
  encodeWebp := fun _ => Except.ok []
  optimizePng := fun _ => Except.error "opt boom"

/-- A JPEG encoder whose output at the initial quality 90 is 100 bytes but
whose output at every tighter knob setting is 200 bytes. -/
def cexCollab : Collab where
  resize := fun img _ _ => img
  encodeJpegQ := fun _ q =>
    if q = 90 then Except.ok (List.replicate 100 0) else Except.ok (List.replicate 200 0)
  encodePng := fun _ => Except.ok []
  encodeWebp := fun _ => Except.ok []
  optimizePng := fun b => Except.ok b

/-- A JPEG encoder producing 2 bytes at quality 90 and 1 byte below. -/
def regCollab : Collab where
  resize := fun img _ _ => img
  encodeJpegQ := fun _ q =>
    if q = 90 then Except.ok [0, 0] else Except.ok [0]
  encodePng := fun _ => Except.ok [0, 0]
  encodeWebp := fun _ => Except.ok [0, 0]
  optimizePng := fun b => Except.ok b

/-- C1: the JPEG knob walk starts at `quality = 90, scale = 1.0`; while
quality exceeds 10, each failing iteration lowers quality by 10 and leaves
scale at 1.0; once quality has reached 10 it is held there and each further
failing iteration lowers scale by 0.1; along the walk the exhaustion test
`quality <= 10 && scale <= 0.1` of the loop holds exactly from the 18th
iteration (index 17) on. -/
theorem C1_jpeg_knob_schedule :
    jpegKnobs 0 = (90, 1) ∧
    (∀ n : Nat, 10 < (jpegKnobs n).1 →
      (jpegKnobs n).2 = 1 ∧ jpegKnobs (n + 1) = ((jpegKnobs n).1 - 10, 1)) ∧
    (∀ n : Nat, (jpegKnobs n).1 ≤ 10 →
      (jpegKnobs n).1 = 10 ∧ jpegKnobs (n + 1) = (10, (jpegKnobs n).2 - 1/10)) ∧
    (∀ n : Nat, ((jpegKnobs n).1 ≤ 10 ∧ (jpegKnobs n).2 ≤ 1/10) ↔ 17 ≤ n) := by
  refine ⟨rfl, ?_, ?_, jpegExhausted_iff⟩
  · intro n hn
    rcases Nat.lt_or_ge n 8 with h8 | h8
    · have hkn := jpegKnobs_le8 n (by omega)
      have hkn1 := jpegKnobs_le8 (n + 1) (by omega)
      rw [hkn] at hn ⊢
      rw [hkn1]
      refine ⟨rfl, ?_⟩
      rw [Prod.mk.injEq]
      refine ⟨?_, rfl⟩
      show 90 - 10 * (n + 1) = 90 - 10 * n - 10
      omega
    · obtain ⟨k, rfl⟩ := Nat.exists_eq_add_of_le h8
      rw [jpegKnobs_ge8] at hn
      simp at hn
  · intro n hn
    rcases Nat.lt_or_ge n 8 with h8 | h8
    · rw [jpegKnobs_le8 n (by omega)] at hn
      simp only at hn
      omega
    · obtain ⟨k, rfl⟩ := Nat.exists_eq_add_of_le h8
      rw [jpegKnobs_ge8]
      refine ⟨rfl, ?_⟩
      rw [show 8 + k + 1 = 8 + (k + 1) by omega, jpegKnobs_ge8, scaleWalk_succ]

/-- Concrete instantiation of the C1 schedule at iteration 0 (quality
phase) and iteration 8 (scale phase). -/
theorem C1_witness :
    (10 < (jpegKnobs 0).1 ∧
      (jpegKnobs 0).2 = 1 ∧ jpegKnobs 1 = ((jpegKnobs 0).1 - 10, 1)) ∧
    ((jpegKnobs 8).1 ≤ 10 ∧
      (jpegKnobs 8).1 = 10 ∧ jpegKnobs 9 = (10, (jpegKnobs 8).2 - 1/10)) :=
  ⟨⟨by decide, C1_jpeg_knob_schedule.2.1 0 (by decide)⟩,
   ⟨by decide, C1_jpeg_knob_schedule.2.2.1 8 (by decide)⟩⟩

/-- C2: for every codec, the search returns an artifact exactly when its
walk reaches a first iteration whose measured byte length meets the budget
or whose knobs are exhausted (every earlier iteration having measured over
budget without exhaustion), the returned bytes are that iteration's
artifact, and the reported verdict is true iff the returned length is at
most the requested budget. -/
theorem C2_stop_condition_and_verdict (C : Collab) (img : Img) (target : Nat) (buf : Bytes) :
    (compress_jpeg C img target = Except.ok buf ↔
      ∃ n, n < 18 ∧ (∀ m < n, jpegContinues C img target m) ∧
        jpegAttempt C img (jpegKnobs n).1 (jpegKnobs n).2 = Except.ok buf ∧
        (buf.length ≤ target ∨ ((jpegKnobs n).1 ≤ 10 ∧ (jpegKnobs n).2 ≤ 1/10))) ∧
    (compress_png C img target = Except.ok buf ↔
      ∃ n, n < 10 ∧ (∀ m < n, pngContinues C img target m) ∧
        pngAttempt C img (scaleWalk n) = Except.ok buf ∧
        (buf.length ≤ target ∨ scaleWalk n ≤ 1/10)) ∧
    (compress_webp C img target = Except.ok buf ↔
      ∃ n, n < 10 ∧ (∀ m < n, webpContinues C img target m) ∧
        webpAttempt C img (scaleWalk n) = Except.ok buf ∧
        (buf.length ≤ target ∨ scaleWalk n ≤ 1/10)) ∧
    (metBudget buf target = true ↔ buf.length ≤ target) :=
  ⟨compress_jpeg_ok_iff C img target buf, compress_png_ok_iff C img target buf,
   compress_webp_ok_iff C img target buf, by simp [metBudget]⟩

/-- Concrete instantiation of C2: an encoder already under budget at the
initial knobs stops at the first iteration, and the verdict is positive. -/
theorem C2_witness :
    compress_jpeg (okCollab [0]) wImg 5 = Except.ok [0] ∧
    metBudget [0] 5 = true :=
  ⟨(C2_stop_condition_and_verdict (okCollab [0]) wImg 5 [0]).1.mpr
      ⟨0, by omega, fun m hm => absurd hm (Nat.not_lt_zero m), rfl, Or.inl (by decide)⟩,
   (C2_stop_condition_and_verdict (okCollab [0]) wImg 5 [0]).2.2.2.mpr (by decide)⟩

/-- C3: for every collaborator assignment, raster and budget of at least
one byte, all three search loops terminate within their fuel: 18 encode
iterations for JPEG (8 quality steps, 9 scale steps, plus the exhausted
final attempt) and 10 for PNG and WebP, the scale knob walking in exact
decimal steps of 0.1 down to the `scale <= 0.1` exhaustion test. -/
theorem C3_termination_bound (C : Collab) (img : Img) (target : Nat)
    (hbudget : 1 ≤ target) :
    (jpegLoop C img target 18 90 1).isSome = true ∧
    (pngLoop C img target 10 1).isSome = true ∧
    (webpLoop C img target 10 1).isSome = true ∧
    (∀ n : Nat, scaleWalk n = 1 - (n : ℚ) / 10) := by
  refine ⟨?_, ?_, ?_, scaleWalk_eq⟩
  · apply jpegLoop_isSome
    have hex := (jpegExhausted_iff 17).mpr le_rfl
    exact ⟨17, by omega, hex.1, hex.2⟩
  · apply pngLoop_isSome
    refine ⟨9, by omega, ?_⟩
    norm_num
  · apply webpLoop_isSome
    refine ⟨9, by omega, ?_⟩
    norm_num

/-- Concrete instantiation of C3 at a fixed collaborator assignment, raster
and budget. -/
theorem C3_witness :
    (1 ≤ 5) ∧
    ((jpegLoop (okCollab [0]) wImg 5 18 90 1).isSome = true ∧
      (pngLoop (okCollab [0]) wImg 5 10 1).isSome = true ∧
      (webpLoop (okCollab [0]) wImg 5 10 1).isSome = true ∧
      (∀ n : Nat, scaleWalk n = 1 - (n : ℚ) / 10)) :=
  ⟨by decide, C3_termination_bound (okCollab [0]) wImg 5 (by decide)⟩

/-- C4: the knobs never increase between successive iterations: the JPEG
update is non-increasing in quality and scale at every state and along the
walked trajectory, and the PNG/WebP scale walk is non-increasing. -/
theorem C4_monotone_knobs (n : Nat) :
    (∀ (q : Nat) (s : ℚ), (jpegUpdate q s).1 ≤ q ∧ (jpegUpdate q s).2 ≤ s) ∧
    (jpegKnobs (n + 1)).1 ≤ (jpegKnobs n).1 ∧
    (jpegKnobs (n + 1)).2 ≤ (jpegKnobs n).2 ∧
    scaleWalk (n + 1) ≤ scaleWalk n := by
  have hupd : ∀ (q : Nat) (s : ℚ), (jpegUpdate q s).1 ≤ q ∧ (jpegUpdate q s).2 ≤ s := by
    intro q s
    unfold jpegUpdate
    split
    · exact ⟨Nat.sub_le q 10, le_rfl⟩
    · refine ⟨le_rfl, ?_⟩
      simp only
      linarith
  refine ⟨hupd, ?_, ?_, ?_⟩
  · rw [jpegKnobs_succ]
    exact (hupd (jpegKnobs n).1 (jpegKnobs n).2).1
  · rw [jpegKnobs_succ]
    exact (hupd (jpegKnobs n).1 (jpegKnobs n).2).2
  · rw [scaleWalk_succ]
    linarith

/-- C5: a PNG artifact returned by the search is the post-optimizer's
output at the stopping iteration — the fresh encoder output was fed to the
optimizer before measuring — and the budget comparison that stopped the
loop reads the optimized length. -/
theorem C5_png_optimized_before_measure (C : Collab) (img : Img) (target : Nat)
    (buf : Bytes) (h : compress_png C img target = Except.ok buf) :
    ∃ n raw, n < 10 ∧
      C.encodePng (processedImg C img (scaleWalk n)) = Except.ok raw ∧
      C.optimizePng raw = Except.ok buf ∧
      (buf.length ≤ target ∨ scaleWalk n ≤ 1/10) := by
  obtain ⟨n, hn, -, hatt, hstop⟩ := (compress_png_ok_iff C img target buf).mp h
  unfold pngAttempt at hatt
  cases henc : C.encodePng (processedImg C img (scaleWalk n)) with
  | error e =>
    rw [henc] at hatt
    simp at hatt
  | ok raw =>
    rw [henc] at hatt
    exact ⟨n, raw, hn, henc, hatt, hstop⟩

/-- Concrete instantiation of C5: the optimizer's buffer, not the encoder's,
comes back from the search. -/
theorem C5_witness :
    compress_png pngCollab wImg 5 = Except.ok [7] ∧
    ∃ n raw, n < 10 ∧
      pngCollab.encodePng (processedImg pngCollab wImg (scaleWalk n)) = Except.ok raw ∧
      pngCollab.optimizePng raw = Except.ok [7] ∧
      (([7] : Bytes).length ≤ 5 ∨ scaleWalk n ≤ 1/10) :=
  ⟨rfl, C5_png_optimized_before_measure pngCollab wImg 5 [7] rfl⟩

/-- C6: the working raster of an iteration: when `scale < 1.0` it is the
resize collaborator applied to the input with both dimensions multiplied by
the same scale factor and floor-truncated to integer pixels; when
`scale >= 1.0` it is the input raster unchanged, independent of the resize
collaborator (no resize call). -/
theorem C6_resize_iff_scale_lt_one (C D : Collab) (img : Img) (s : ℚ) :
    (s < 1 →
      processedImg C img s =
        C.resize img (⌊(img.width : ℚ) * s⌋).toNat (⌊(img.height : ℚ) * s⌋).toNat) ∧
    (1 ≤ s →
      processedImg C img s = img ∧ processedImg C img s = processedImg D img s) := by
  constructor
  · intro h
    rw [processedImg, if_pos h]
  · intro h
    have hns : ¬ s < 1 := not_lt.mpr h
    constructor
    · rw [processedImg, if_neg hns]
    · rw [processedImg, if_neg hns, processedImg, if_neg hns]

/-- Concrete instantiation of C6 at `scale = 1/2` (resize branch) and
`scale = 1` (identity branch, two different resize collaborators). -/
theorem C6_witness :
    ((1 : ℚ)/2 < 1 ∧
      processedImg (okCollab [0]) wImg (1/2) =
        (okCollab [0]).resize wImg (⌊(wImg.width : ℚ) * (1/2)⌋).toNat
          (⌊(wImg.height : ℚ) * (1/2)⌋).toNat) ∧
    ((1 : ℚ) ≤ 1 ∧
      processedImg (okCollab [0]) wImg 1 = wImg ∧
      processedImg (okCollab [0]) wImg 1 = processedImg (okCollab [1]) wImg 1) :=
  ⟨⟨by norm_num, (C6_resize_iff_scale_lt_one (okCollab [0]) (okCollab [1]) wImg (1/2)).1
      (by norm_num)⟩,
   ⟨le_rfl, (C6_resize_iff_scale_lt_one (okCollab [0]) (okCollab [1]) wImg 1).2 le_rfl⟩⟩

/-- C7: a collaborator failure at any iteration the search reaches is
returned immediately and unchanged — an encoder error at the current knobs,
or a PNG optimizer error on the current encoder output, becomes the result
of the whole search; the loop never tightens the knobs and retries after a
failure. -/
theorem C7_error_propagation (C : Collab) (img : Img) (target : Nat) (e : Err) :
    (∀ n, n < 18 → (∀ m < n, jpegContinues C img target m) →
      jpegAttempt C img (jpegKnobs n).1 (jpegKnobs n).2 = Except.error e →
      compress_jpeg C img target = Except.error e) ∧
    (∀ n, n < 10 → (∀ m < n, pngContinues C img target m) →
      pngAttempt C img (scaleWalk n) = Except.error e →
      compress_png C img target = Except.error e) ∧
    (∀ n, n < 10 → (∀ m < n, webpContinues C img target m) →
      webpAttempt C img (scaleWalk n) = Except.error e →
      compress_webp C img target = Except.error e) ∧
    (∀ (s : ℚ) (raw : Bytes),
      C.encodePng (processedImg C img s) = Except.ok raw →
      C.optimizePng raw = Except.error e →
      pngAttempt C img s = Except.error e) := by
  refine ⟨?_, ?_, ?_, ?_⟩
  · intro n hn hcont hatt
    have hskip := jpegLoop_skip C img target n (18 - n) hcont
    rw [show n + (18 - n) = 18 by omega] at hskip
    unfold compress_jpeg
    rw [hskip, show 18 - n = (17 - n) + 1 by omega,
      jpegLoop_err C img target _ _ _ e hatt]
    rfl
  · intro n hn hcont hatt
    have hskip := pngLoop_skip C img target n (10 - n) hcont
    rw [show n + (10 - n) = 10 by omega] at hskip
    unfold compress_png
    rw [hskip, show 10 - n = (9 - n) + 1 by omega,
      pngLoop_err C img target _ _ e hatt]
    rfl
  · intro n hn hcont hatt
    have hskip := webpLoop_skip C img target n (10 - n) hcont
    rw [show n + (10 - n) = 10 by omega] at hskip
    unfold compress_webp compress_webp_withQuality
    rw [hskip, show 10 - n = (9 - n) + 1 by omega,
      webpLoop_err C img target _ _ e hatt]
    rfl
  · intro s raw henc hopt
    unfold pngAttempt
    rw [henc]
    exact hopt

/-- Concrete instantiation of C7: failing encoders abort all three searches
with their error at the very first iteration, and a failing optimizer turns
the PNG attempt into its error. -/
theorem C7_witness :
    compress_jpeg errCollab wImg 5 = Except.error "boom" ∧
    compress_png errCollab wImg 5 = Except.error "boom" ∧
    compress_webp errCollab wImg 5 = Except.error "boom" ∧
    pngAttempt optErrCollab wImg 1 = Except.error "opt boom" :=
  ⟨(C7_error_propagation errCollab wImg 5 "boom").1 0 (by omega)
      (fun m hm => absurd hm (Nat.not_lt_zero m)) rfl,
   (C7_error_propagation errCollab wImg 5 "boom").2.1 0 (by omega)
      (fun m hm => absurd hm (Nat.not_lt_zero m)) rfl,
   (C7_error_propagation errCollab wImg 5 "boom").2.2.1 0 (by omega)
      (fun m hm => absurd hm (Nat.not_lt_zero m)) rfl,
   (C7_error_propagation optErrCollab wImg 5 "opt boom").2.2.2 1 [1] rfl rfl⟩

/-- C8 as stated is false: with the encoder `cexCollab`, whose output at the
initial knobs is 100 bytes (over the budget of 50, so the loop iterates
more than once) and 200 bytes at every tighter setting, the JPEG search
runs to exhaustion and returns a 200-byte artifact — strictly larger than
the initial-knob encoding. -/
theorem C8_counterexample :
    jpegAttempt cexCollab wImg 90 1 = Except.ok (List.replicate 100 0) ∧
    ¬ (List.replicate 100 (0 : Nat)).length ≤ 50 ∧
    compress_jpeg cexCollab wImg 50 = Except.ok (List.replicate 200 0) ∧
    ¬ (List.replicate 200 (0 : Nat)).length ≤ (List.replicate 100 (0 : Nat)).length := by
  refine ⟨rfl, by decide, ?_, by decide⟩
  apply (compress_jpeg_ok_iff cexCollab wImg 50 (List.replicate 200 0)).mpr
  refine ⟨17, by omega, ?_, ?_, Or.inr ((jpegExhausted_iff 17).mpr le_rfl)⟩
  · intro m hm
    by_cases h90 : (jpegKnobs m).1 = 90
    · refine ⟨List.replicate 100 0, ?_, by decide, ?_⟩
      · simp [jpegAttempt, cexCollab, h90]
      · rw [jpegExhausted_iff]
        omega
    · refine ⟨List.replicate 200 0, ?_, by decide, ?_⟩
      · simp [jpegAttempt, cexCollab, h90]
      · rw [jpegExhausted_iff]
        omega
  · have h17 : (jpegKnobs 17).1 = 10 := by
      rw [show (17 : Nat) = 8 + 9 from rfl, jpegKnobs_ge8]
    simp [jpegAttempt, cexCollab, h17]

/-- C8 amended: for every codec, if the loop iterates more than once (the
attempt at the initial knobs was over budget) and the returned artifact
meets the budget, then the returned length is at most the length the
initial-knob encoding produced.  (At exhaustion with the budget unmet, the
final artifact may be larger — see the counterexample.) -/
theorem C8_amended_non_regression (C : Collab) (img : Img) (target : Nat)
    (buf0 buf : Bytes) :
    (jpegAttempt C img 90 1 = Except.ok buf0 → target < buf0.length →
      compress_jpeg C img target = Except.ok buf → metBudget buf target = true →
      buf.length ≤ buf0.length) ∧
    (pngAttempt C img 1 = Except.ok buf0 → target < buf0.length →
      compress_png C img target = Except.ok buf → metBudget buf target = true →
      buf.length ≤ buf0.length) ∧
    (webpAttempt C img 1 = Except.ok buf0 → target < buf0.length →
      compress_webp C img target = Except.ok buf → metBudget buf target = true →
      buf.length ≤ buf0.length) := by
  have hmb : ∀ b : Bytes, metBudget b target = true → b.length ≤ target := by
    intro b hb
    simpa [metBudget] using hb
  exact ⟨fun _ h0 _ hm => le_trans (hmb buf hm) (by omega),
         fun _ h0 _ hm => le_trans (hmb buf hm) (by omega),
         fun _ h0 _ hm => le_trans (hmb buf hm) (by omega)⟩

/-- Concrete instantiation of the amended C8: a 2-byte initial encoding over
a 1-byte budget, a second iteration meeting it with 1 byte. -/
theorem C8_amended_witness :
    jpegAttempt regCollab wImg 90 1 = Except.ok [0, 0] ∧
    1 < ([0, 0] : Bytes).length ∧
    compress_jpeg regCollab wImg 1 = Except.ok [0] ∧
    metBudget [0] 1 = true ∧
    ([0] : Bytes).length ≤ ([0, 0] : Bytes).length :=
  ⟨rfl, by decide, rfl, by decide,
   (C8_amended_non_regression regCollab wImg 1 [0, 0] [0]).1 rfl (by decide) rfl (by decide)⟩

/-- C9: format selection: under `Auto`, extension `jpg`/`jpeg` maps to
Jpeg, `png` to Png, `webp` to Webp, and any other or absent extension
defaults to Jpeg; an explicit (non-Auto) request is used unchanged; the
selector is total and never yields `Auto`. -/
theorem C9_format_selection :
    detectFormat Format.Auto (some "jpg") = Format.Jpeg ∧
    detectFormat Format.Auto (some "jpeg") = Format.Jpeg ∧
    detectFormat Format.Auto (some "png") = Format.Png ∧
    detectFormat Format.Auto (some "webp") = Format.Webp ∧
    detectFormat Format.Auto none = Format.Jpeg ∧
    (∀ ext : Option String,
      ext ∉ ([some "jpg", some "jpeg", some "png", some "webp"] : List (Option String)) →
      detectFormat Format.Auto ext = Format.Jpeg) ∧
    (∀ f : Format, f ≠ Format.Auto → ∀ ext, detectFormat f ext = f) ∧
    (∀ (f : Format) (ext : Option String), detectFormat f ext ≠ Format.Auto) := by
  refine ⟨rfl, rfl, rfl, rfl, rfl, ?_, ?_, ?_⟩
  · intro ext hext
    simp only [List.mem_cons, List.not_mem_nil, or_false] at hext
    push_neg at hext
    obtain ⟨h1, h2, h3, h4⟩ := hext
    unfold detectFormat
    rw [if_pos rfl]
    split <;> simp_all
  · intro f hf ext
    unfold detectFormat
    rw [if_neg hf]
  · intro f ext
    by_cases hf : f = Format.Auto
    · subst hf
      unfold detectFormat
      rw [if_pos rfl]
      split <;> decide
    · unfold detectFormat
      rw [if_neg hf]
      exact hf

/-- Concrete instantiation of C9 at an unknown extension and at an explicit
format request. -/
theorem C9_witness :
    (some "gif" ∉ ([some "jpg", some "jpeg", some "png", some "webp"] : List (Option String)) ∧
      detectFormat Format.Auto (some "gif") = Format.Jpeg) ∧
    (Format.Png ≠ Format.Auto ∧ detectFormat Format.Png (some "jpg") = Format.Png) :=
  ⟨⟨by decide, C9_format_selection.2.2.2.2.2.1 (some "gif") (by decide)⟩,
   ⟨by decide, C9_format_selection.2.2.2.2.2.2.1 Format.Png (by decide) (some "jpg")⟩⟩

/-- C10: the WebP search ignores its dead `quality` local (initialized to
80.0 and never read): substituting any value leaves the result unchanged,
so the output bytes are a function of the collaborators, raster and budget
alone, and the actual entry point equals every such instantiation. -/
theorem C10_webp_quality_unused (C : Collab) (img : Img) (target : Nat) (q r : ℚ) :
    compress_webp_withQuality C img target q = compress_webp_withQuality C img target r ∧
    compress_webp C img target = compress_webp_withQuality C img target q :=
  ⟨rfl, rfl⟩

end ImageCompressor
